import Mathlib

/-!
# Verification of the replica application batch (`replica_app_batch.go`)

A shallow embedding of the replicated-command application core of the
kvserver package: the `replicaAppBatch` staging/commit pipeline and the
`ephemeralReplicaAppBatch` variant. Pure data is modelled with Lean
structures; the stateful Go methods become functions that thread the
replica, the batch and the command explicitly and return errors through
`Except`/`Option`.

Modelling notes, applying throughout:

* Machine integers (raft indexes, lease-applied indexes, terms) are `Nat`;
  byte counts are `Nat`; MVCC stat fields and raft log deltas are `Int`.
  None of the verified claims involve integer overflow.
* The storage engine batch (`storage.Batch`) is modelled as the ordered
  list of records staged into it (`List BatchRecord`); committing returns
  that list together with the `sync` flag that was passed to `Commit`.
* Effects on subsystems that no claim touches are omitted from the model
  and noted at the definition that would perform them: rangefeed
  disconnects, SSTable ingestion, split/merge triggers, the split/merge
  lock, GC-threshold/GC-hint publication, logical-op pre-value population,
  metrics, and the deprecated-stats-delta migration.
-/

namespace KVServer

/-- Hybrid-logical-clock timestamp (`hlc.Timestamp`): wall time and a
logical tick, compared lexicographically. The `Synthetic` flag, which does
not participate in ordering or emptiness, is omitted. -/
structure Timestamp where
  wallTime : Int
  logical : Int
deriving DecidableEq, Repr

/-- The zero timestamp. -/
def Timestamp.empty : Timestamp := ⟨0, 0⟩

/-- `hlc.Timestamp.IsEmpty`: both fields are zero. -/
def Timestamp.IsEmpty (t : Timestamp) : Bool :=
  decide (t.wallTime = 0 ∧ t.logical = 0)

/-- `hlc.Timestamp.Less`: strict lexicographic comparison. -/
def Timestamp.Less (a b : Timestamp) : Bool :=
  decide (a.wallTime < b.wallTime ∨ (a.wallTime = b.wallTime ∧ a.logical < b.logical))

/-- `hlc.Timestamp.LessEq`: `a ≤ b` iff `¬(b < a)` for the total
lexicographic order. -/
def Timestamp.LessEq (a b : Timestamp) : Bool :=
  !(Timestamp.Less b a)

/-- `hlc.Timestamp.Forward`: advance to the maximum of the two timestamps,
reporting whether the receiver actually advanced. -/
def Timestamp.Forward (t u : Timestamp) : Timestamp × Bool :=
  if Timestamp.Less t u then (u, true) else (t, false)

/-- `enginepb.MVCCStats`, restricted to a representative set of
componentwise-added fields (the Go struct has more fields, all treated
identically by `MVCCStats.Add`). -/
structure MVCCStats where
  liveBytes : Int
  keyBytes : Int
  valBytes : Int
  keyCount : Int
  valCount : Int
deriving DecidableEq, Repr

/-- The zero stats value. -/
def MVCCStats.zero : MVCCStats := ⟨0, 0, 0, 0, 0⟩

/-- `enginepb.MVCCStats.Add`: componentwise addition. -/
def MVCCStats.add (a b : MVCCStats) : MVCCStats :=
  ⟨a.liveBytes + b.liveBytes, a.keyBytes + b.keyBytes, a.valBytes + b.valBytes,
   a.keyCount + b.keyCount, a.valCount + b.valCount⟩

/-- `roachpb.RaftTruncatedState`: index/term of the highest truncated raft
log entry. -/
structure TruncatedState where
  index : Nat
  term : Nat
deriving DecidableEq, Repr

/-- `kvserverpb.ChangeReplicas`, reduced to what `changeRemovesStore`
inspects: the store ids present in the change's new descriptor
(`change.Desc`), and `change.NextReplicaID()`. -/
structure ChangeReplicas where
  newStoreIds : List Nat
  nextReplicaId : Nat
deriving DecidableEq, Repr

/-- `kvserverpb.ReplicatedEvalResult`, reduced to the fields the verified
code paths read or write: the MVCC stats delta, the write timestamp, the
truncated state carried in `res.State`, the raft-log bookkeeping fields for
truncations, and the replica-membership change. Omitted side-effect fields
(Split, Merge, AddSSTable, GCThreshold, GCHint, MVCCHistoryMutation) drive
subsystems outside this model. -/
structure ReplicatedEvalResult where
  delta : MVCCStats
  writeTimestamp : Timestamp
  truncatedState : Option TruncatedState
  raftExpectedFirstIndex : Nat
  raftLogDelta : Int
  changeReplicas : Option ChangeReplicas
deriving DecidableEq, Repr

/-- The zero value `kvserverpb.ReplicatedEvalResult{}` that a rejected
command's result is overwritten with. -/
def ReplicatedEvalResult.empty : ReplicatedEvalResult :=
  { delta := MVCCStats.zero
    writeTimestamp := Timestamp.empty
    truncatedState := none
    raftExpectedFirstIndex := 0
    raftLogDelta := 0
    changeReplicas := none }

/-- The kind of forced error produced by the rejection predicate
(`cmd.ForcedErr`). -/
inductive ForcedErrKind where
  | illegalLeaseIndex
  | notLeaseHolder
  | batchTimestampBeforeGC
deriving DecidableEq, Repr

/-- A `replicatedCmd`: one committed raft entry prepared for application.
Fields of the embedded raft command proto (`cmd.Cmd.*`) are flattened into
this structure; `leaseIndex` and `forcedErr` are the mutable slots that
`shouldApplyCommand` fills in. -/
structure replicatedCmd where
  /-- `cmd.Index()`: position of the entry in the raft log. -/
  index : Nat
  /-- `cmd.Term`. -/
  term : Nat
  /-- `len(cmd.Data)`: encoded entry size. -/
  dataSize : Nat
  /-- `cmd.Cmd.MaxLeaseIndex`. -/
  maxLeaseIndex : Nat
  /-- `cmd.Cmd.ClosedTimestamp` (a nullable proto field). -/
  closedTimestamp : Option Timestamp
  /-- `cmd.Cmd.WriteBatch`: opaque ordered engine mutations. -/
  writeBatch : Option (List Nat)
  /-- `cmd.Cmd.LogicalOpLog`. -/
  logicalOpLog : Option (List Nat)
  /-- `cmd.Cmd.ReplicatedEvalResult`. -/
  replicatedEvalResult : ReplicatedEvalResult
  /-- Sequence number of the lease under which the command was proposed. -/
  proposerLeaseSeq : Nat
  /-- `cmd.IsLocal()`: proposed by this replica with a waiting proposer. -/
  isLocal : Bool
  /-- `cmd.proposal.Request.AppliesTimestampCache()`: the request is an
  intent-writing command subject to the closed-timestamp check. -/
  appliesTimestampCache : Bool
  /-- `cmd.LeaseIndex`, set by `shouldApplyCommand`. -/
  leaseIndex : Nat
  /-- `cmd.ForcedErr`, set by `shouldApplyCommand`. -/
  forcedErr : Option ForcedErrKind
deriving DecidableEq, Repr

/-- `kvserverpb.ReplicaState`, reduced to the fields read or written by the
application batch: applied indexes, the lease sequence number (for the
rejection predicate), MVCC stats, the raft closed timestamp, the GC
threshold and the truncated state. -/
structure ReplicaState where
  raftAppliedIndex : Nat
  raftAppliedIndexTerm : Nat
  leaseAppliedIndex : Nat
  leaseSeq : Nat
  stats : MVCCStats
  raftClosedTimestamp : Timestamp
  gcThreshold : Timestamp
  truncatedState : TruncatedState
deriving DecidableEq, Repr

/-- A pending truncation queued onto the store's background raft
truncator. -/
structure PendingTruncation where
  trunc : TruncatedState
  expectedFirstIndex : Nat
  logDelta : Int
deriving DecidableEq, Repr

/-- The parts of `Replica` (and its store) that the application batch
touches: the committed state (`r.mu.state`), the store id, the raft log
(read only to print diagnostics), the `raftLogSizeTrusted` flag, the
background truncator's queue, the destroy status, and the recorded
closed-timestamp setter. -/
structure Replica where
  state : ReplicaState
  storeId : Nat
  raftLog : List String
  raftLogSizeTrusted : Bool
  pendingTruncations : List PendingTruncation
  destroyed : Bool
  closedTimestampSetterIdx : Option Nat
deriving DecidableEq, Repr

/-- One record staged into the storage engine batch, in staging order. -/
inductive BatchRecord where
  /-- An opaque mutation from a command's write batch. -/
  | mutation (m : Nat)
  /-- The truncated-state key written by a strongly coupled truncation. -/
  | truncatedStateKey (ts : TruncatedState)
  /-- Deletion of all of this replica's local data staged before a
  removal (`preDestroyRaftMuLocked`), tagged with the tombstone's next
  replica id. -/
  | clearLocalData (nextReplicaId : Nat)
  /-- The range applied state key
  (`stateloader.StateLoader.SetRangeAppliedState`): applied index,
  lease-applied index, applied term, stats and closed timestamp in one
  key. -/
  | rangeAppliedStateKey (raftAppliedIndex leaseAppliedIndex raftAppliedIndexTerm : Nat)
      (stats : MVCCStats) (closedTimestamp : Timestamp)
deriving DecidableEq, Repr

/-- Errors surfaced by the application batch. The first five model
`errors.AssertionFailedf` returns; `commitFailed` models a storage engine
commit failure. -/
inductive ReplError where
  | nonZeroIndexRequired
  | appliedIndexJumped (applied idx : Nat)
  | cmdClosedTimestampRegression (existing newTs : Timestamp) (logTail : List String)
  | writeBelowClosedTimestamp (wts closed : Timestamp)
  | replicaClosedTimestampRegression (existing newTs : Timestamp)
  | commitFailed
deriving DecidableEq, Repr

/-- `replicaAppBatch`: accumulates the state of applying a batch of
committed raft entries. `state` is the batch's view of the replica state,
`records` the staged contents of the storage engine batch. Fields that
only feed metrics (`entryBytes`, `followerStoreWriteBytes`, timings) are
kept only where a claim mentions them. -/
structure replicaAppBatch where
  state : ReplicaState
  records : List BatchRecord
  changeRemovesReplica : Bool
  entries : Nat
  entryBytes : Nat
  emptyEntries : Nat
  mutations : Nat
  closedTimestampSetterIdx : Option Nat
deriving DecidableEq, Repr

/-- Modelled from the spec: `Replica.shouldApplyCommand` (and the
underlying `kvserverbase.CheckForcedErr`) is not among the provided
sources. Following §4.1 of the spec, the predicate is a deterministic,
side-effect-free function of the batch state view and the command, applying
three rules in order: (1) the command's `MaxLeaseIndex` must be strictly
greater than the view's `LeaseAppliedIndex` (violation: retriable
lease-applied-index error); (2) the proposing lease sequence must match the
view's lease (violation: not-leaseholder error); (3) the command's
evaluation timestamp, when present, must be strictly greater than the
view's GC threshold (violation: batch-timestamp-before-GC-threshold
error). It records the resulting lease-applied index in `cmd.LeaseIndex`
(the view's index if the command cannot advance it, `MaxLeaseIndex`
otherwise) and the forced error, if any, in `cmd.ForcedErr`. -/
def shouldApplyCommand (state : ReplicaState) (cmd : replicatedCmd) : replicatedCmd :=
  if cmd.maxLeaseIndex ≤ state.leaseAppliedIndex then
    { cmd with leaseIndex := state.leaseAppliedIndex
               forcedErr := some ForcedErrKind.illegalLeaseIndex }
  else if cmd.proposerLeaseSeq ≠ state.leaseSeq then
    { cmd with leaseIndex := cmd.maxLeaseIndex
               forcedErr := some ForcedErrKind.notLeaseHolder }
  else if cmd.replicatedEvalResult.writeTimestamp.IsEmpty = false ∧
      cmd.replicatedEvalResult.writeTimestamp.LessEq state.gcThreshold = true then
    { cmd with leaseIndex := cmd.maxLeaseIndex
               forcedErr := some ForcedErrKind.batchTimestampBeforeGC }
  else
    { cmd with leaseIndex := cmd.maxLeaseIndex, forcedErr := none }

/-- Modelled from the spec: `Replica.printRaftTail` is not among the
provided sources. It renders "a tail of recent log entries (bounded count
and bytes per entry)": the last `maxEntries` entries of the raft log, each
truncated to `maxCharsPerEntry` characters. -/
def printRaftTail (log : List String) (maxEntries maxCharsPerEntry : Nat) : List String :=
  ((log.reverse.take maxEntries).map fun e => String.mk (e.data.take maxCharsPerEntry)).reverse

/-- `replicaAppBatch.assertNoWriteBelowClosedTimestamp`: a local command
whose request applies the timestamp cache must not carry a non-empty write
timestamp at or below the timestamp closed by *previous* commands
(`b.state.RaftClosedTimestamp`), not the timestamp the command itself
carries. `enabled` is the `raftClosedTimestampAssertionsEnabled`
environment toggle. -/
def replicaAppBatch.assertNoWriteBelowClosedTimestamp (b : replicaAppBatch)
    (enabled : Bool) (cmd : replicatedCmd) : Option ReplError :=
  if cmd.isLocal = false ∨ cmd.appliesTimestampCache = false then none
  else if enabled = false then none
  else if cmd.replicatedEvalResult.writeTimestamp.IsEmpty = false ∧
      cmd.replicatedEvalResult.writeTimestamp.LessEq b.state.raftClosedTimestamp = true then
    some (ReplError.writeBelowClosedTimestamp cmd.replicatedEvalResult.writeTimestamp
      b.state.raftClosedTimestamp)
  else none

/-- `replicaAppBatch.assertNoCmdClosedTimestampRegression`: the closed
timestamp carried by the command must not be strictly below the one set by
previous commands. The diagnostic embeds the raft log tail printed with
`maxEntries = 100` and `maxCharsPerEntry = 2000`. -/
def replicaAppBatch.assertNoCmdClosedTimestampRegression (b : replicaAppBatch)
    (enabled : Bool) (r : Replica) (cmd : replicatedCmd) : Option ReplError :=
  if enabled = false then none
  else
    match cmd.closedTimestamp with
    | none => none
    | some newClosed =>
      if newClosed.IsEmpty = false ∧ newClosed.Less b.state.raftClosedTimestamp = true then
        some (ReplError.cmdClosedTimestampRegression b.state.raftClosedTimestamp newClosed
          (printRaftTail r.raftLog 100 2000))
      else none

/-- `replicaAppBatch.stageWriteBatch`: apply the command's write batch to
the application batch's engine batch, counting its mutations. The Go code
decodes the mutation count from the batch header best-effort; here the
count is the length of the mutation list. -/
def replicaAppBatch.stageWriteBatch (b : replicaAppBatch) (cmd : replicatedCmd) :
    replicaAppBatch :=
  match cmd.writeBatch with
  | none => b
  | some wb =>
    { b with records := b.records ++ wb.map BatchRecord.mutation
             mutations := b.mutations + wb.length }

/-- `changeRemovesStore`: the change removes the store iff the store does
not appear in the change's new descriptor. (The Go function also receives
the current range descriptor but does not consult it.) -/
def changeRemovesStore (change : ChangeReplicas) (storeId : Nat) : Bool :=
  !(change.newStoreIds.contains storeId)

/-- Modelled from the spec: `handleTruncatedStateBelowRaftPreApply` is not
among the provided sources. Per §4.3, the strongly coupled regime writes
the truncated state into this batch now, unless this replica's log first
index already exceeds the command's truncation point, in which case the
truncation is discarded for this replica. Returns whether the truncation
was applied together with the updated batch records. -/
def handleTruncatedStateBelowRaftPreApply (currentTrunc newTrunc : TruncatedState)
    (records : List BatchRecord) : Bool × List BatchRecord :=
  if currentTrunc.index < newTrunc.index then
    (true, records ++ [BatchRecord.truncatedStateKey newTrunc])
  else
    (false, records)

/-- `replicaAppBatch.runPreApplyTriggersAfterStagingWriteBatch`, reduced to
the triggers that act on modelled state: the truncated-state trigger and
eager replica removal. The remaining triggers (history-mutation rangefeed
disconnects, AddSSTable ingestion, split, merge, GC-threshold publication,
logical-op hand-off) act only on subsystems outside the model. The
`loosely` parameter is the `isLooselyCoupledRaftLogTruncationEnabled`
cluster setting; the `DisableEagerReplicaRemoval` testing knob is taken as
unset. -/
def replicaAppBatch.runPreApplyTriggersAfterStagingWriteBatch (b : replicaAppBatch)
    (loosely : Bool) (r : Replica) (cmd : replicatedCmd) :
    Replica × replicaAppBatch × replicatedCmd :=
  let res := cmd.replicatedEvalResult
  let step1 : Replica × replicaAppBatch × replicatedCmd :=
    match res.truncatedState with
    | none => (r, b, cmd)
    | some nt =>
      if loosely = false ∨ res.raftExpectedFirstIndex = 0 then
        -- Strongly coupled: hand the truncation to
        -- handleTruncatedStateBelowRaftPreApply now.
        match handleTruncatedStateBelowRaftPreApply b.state.truncatedState nt b.records with
        | (true, records1) => (r, { b with records := records1 }, cmd)
        | (false, records1) =>
          -- The truncated state was discarded: clear it from the result so
          -- it is not applied to the in-memory state, and mark the raft
          -- log size untrusted.
          ((if loosely = false then { r with raftLogSizeTrusted := false } else r),
           { b with records := records1 },
           { cmd with replicatedEvalResult :=
              { res with truncatedState := none, raftLogDelta := 0,
                         raftExpectedFirstIndex := 0 } })
      else
        -- Loosely coupled: queue a pending truncation on the background
        -- truncator and clear the result fields so nothing happens to the
        -- in-memory truncated state at commit.
        ({ r with pendingTruncations := r.pendingTruncations ++
            [{ trunc := nt, expectedFirstIndex := res.raftExpectedFirstIndex,
               logDelta := res.raftLogDelta }] },
         b,
         { cmd with replicatedEvalResult :=
            { res with truncatedState := none, raftLogDelta := 0,
                       raftExpectedFirstIndex := 0 } })
  match step1 with
  | (r1, b1, cmd1) =>
    match cmd1.replicatedEvalResult.changeReplicas with
    | none => (r1, b1, cmd1)
    | some change =>
      if changeRemovesStore change r.storeId then
        -- Mark the replica destroyed and stage the deletion of all of its
        -- local data into this batch.
        ({ r1 with destroyed := true },
         { b1 with changeRemovesReplica := true
                   records := b1.records ++ [BatchRecord.clearLocalData change.nextReplicaId] },
         cmd1)
      else (r1, b1, cmd1)

/-- `replicaAppBatch.stageTrivialReplicatedEvalResult`: apply the trivial
portions of the command's replicated result to the batch's view of the
replica state. (The GC-hint publication at the end of the Go function acts
on a subsystem outside the model.) -/
def replicaAppBatch.stageTrivialReplicatedEvalResult (b : replicaAppBatch)
    (cmd : replicatedCmd) : replicaAppBatch :=
  let st1 := { b.state with raftAppliedIndex := cmd.index, raftAppliedIndexTerm := cmd.term }
  let st2 := if cmd.leaseIndex ≠ 0 then { st1 with leaseAppliedIndex := cmd.leaseIndex } else st1
  let stepCts : ReplicaState × Option Nat :=
    match cmd.closedTimestamp with
    | some cts =>
      if cts.IsEmpty = false then
        ({ st2 with raftClosedTimestamp := cts }, some cmd.index)
      else (st2, b.closedTimestampSetterIdx)
    | none => (st2, b.closedTimestampSetterIdx)
  match stepCts with
  | (st3, setter) =>
    { b with state := { st3 with stats := st3.stats.add cmd.replicatedEvalResult.delta }
             closedTimestampSetterIdx := setter }

/-- The first phase of `replicaAppBatch.Stage` after the index checks:
either replace a rejected command by an empty command, or run the two
closed-timestamp assertions on an accepted one. The input command has
already been through `shouldApplyCommand`. -/
def replicaAppBatch.stageRejectOrAssert (b : replicaAppBatch) (enabled : Bool)
    (r : Replica) (cmd : replicatedCmd) : Except ReplError replicatedCmd :=
  if cmd.forcedErr.isSome then
    -- Apply an empty command.
    Except.ok { cmd with replicatedEvalResult := ReplicatedEvalResult.empty
                         writeBatch := none
                         logicalOpLog := none
                         closedTimestamp := none }
  else
    match b.assertNoCmdClosedTimestampRegression enabled r cmd with
    | some e => Except.error e
    | none =>
      match b.assertNoWriteBelowClosedTimestamp enabled cmd with
      | some e => Except.error e
      | none => Except.ok cmd

/-- The entry-counter bumps at the end of `replicaAppBatch.Stage`
(`b.entries++`, `b.entryBytes += size`, `b.emptyEntries++` on an empty
entry). -/
def replicaAppBatch.bumpEntryCounters (b : replicaAppBatch) (cmd : replicatedCmd) :
    replicaAppBatch :=
  { b with entries := b.entries + 1
           entryBytes := b.entryBytes + cmd.dataSize
           emptyEntries := b.emptyEntries + (if cmd.dataSize = 0 then 1 else 0) }

/-- The straight-line remainder of `replicaAppBatch.Stage` once the command
has been checked: stage the write batch, run the post-staging pre-apply
triggers, stage the trivial replicated result and bump the entry
counters. -/
def replicaAppBatch.stageChecked (b : replicaAppBatch) (loosely : Bool) (r : Replica)
    (cmd : replicatedCmd) : Replica × replicaAppBatch × replicatedCmd :=
  match (b.stageWriteBatch cmd).runPreApplyTriggersAfterStagingWriteBatch loosely r cmd with
  | (r3, b3, cmd3) =>
    (r3, (b3.stageTrivialReplicatedEvalResult cmd3).bumpEntryCounters cmd, cmd3)

/-- `replicaAppBatch.Stage`: the first phase of applying a command. Checks
the raft index, runs the rejection predicate (replacing a rejected command
with an empty entry), runs the closed-timestamp assertions on accepted
commands, stages the write batch and triggers, and advances the batch's
view. On success it returns the updated replica, batch, and the checked
command. (The split/merge lock acquisition, the deprecated-delta
migration, the pre-staging logical-op trigger and the follower write-byte
accounting act on subsystems outside the model.) -/
def replicaAppBatch.Stage (b : replicaAppBatch) (enabled loosely : Bool) (r : Replica)
    (cmd0 : replicatedCmd) : Except ReplError (Replica × replicaAppBatch × replicatedCmd) :=
  if cmd0.index = 0 then Except.error ReplError.nonZeroIndexRequired
  else if cmd0.index ≠ b.state.raftAppliedIndex + 1 then
    Except.error (ReplError.appliedIndexJumped b.state.raftAppliedIndex cmd0.index)
  else
    match b.stageRejectOrAssert enabled r (shouldApplyCommand b.state cmd0) with
    | Except.error e => Except.error e
    | Except.ok cmd2 => Except.ok (b.stageChecked loosely r cmd2)

/-- `replicaAppBatch.addAppliedStateKeyToBatch`: append the range applied
state key — applied index, lease-applied index, applied term, stats and
closed timestamp in one key — to the engine batch. -/
def replicaAppBatch.addAppliedStateKeyToBatch (b : replicaAppBatch) : List BatchRecord :=
  b.records ++ [BatchRecord.rangeAppliedStateKey b.state.raftAppliedIndex
    b.state.leaseAppliedIndex b.state.raftAppliedIndexTerm b.state.stats
    b.state.raftClosedTimestamp]

/-- The outcome of `ApplyToStateMachine`: the published replica, the
durably committed engine records (`none` when the commit failed), the
`sync` flag passed to the engine commit, whether the engine batch was
closed, and the error, if any. -/
structure ApplyResult where
  replica : Replica
  engine : Option (List BatchRecord)
  sync : Bool
  batchClosed : Bool
  err : Option ReplError
deriving DecidableEq, Repr

/-- `replicaAppBatch.ApplyToStateMachine`: the second phase of application.
Writes the applied state key (unless the batch removes this replica),
commits the engine batch with `sync = changeRemovesReplica`, closes it,
and then publishes the batch's view to the replica under its lock —
checking on the way that the replica's committed closed timestamp does not
regress. `commitOk` models whether the engine commit succeeds. (Queue
prodding, metrics and the size-threshold bookkeeping after publication act
on subsystems outside the model.) -/
def replicaAppBatch.ApplyToStateMachine (b : replicaAppBatch) (enabled commitOk : Bool)
    (r : Replica) : ApplyResult :=
  -- Add the replica applied state key to the write batch if this change
  -- doesn't remove us.
  let records := if b.changeRemovesReplica = false then b.addAppliedStateKeyToBatch else b.records
  let sync := b.changeRemovesReplica
  if commitOk = false then
    { replica := r, engine := none, sync := sync, batchClosed := false
      err := some ReplError.commitFailed }
  else
    -- The batch is committed and closed; update the replica's applied
    -- indexes.
    let rstate1 := { r.state with raftAppliedIndex := b.state.raftAppliedIndex
                                  raftAppliedIndexTerm := b.state.raftAppliedIndexTerm
                                  leaseAppliedIndex := b.state.leaseAppliedIndex }
    let existingClosed := rstate1.raftClosedTimestamp
    let newClosed := b.state.raftClosedTimestamp
    -- Sanity check that the RaftClosedTimestamp doesn't go backwards.
    if newClosed.IsEmpty = false ∧ newClosed.Less existingClosed = true ∧ enabled = true then
      { replica := { r with state := rstate1 }
        engine := some records
        sync := sync
        batchClosed := true
        err := some (ReplError.replicaClosedTimestampRegression existingClosed newClosed) }
    else
      let rstate2 := { rstate1 with
        raftClosedTimestamp := (Timestamp.Forward existingClosed newClosed).1
        stats := b.state.stats }
      { replica := { r with state := rstate2
                            closedTimestampSetterIdx := b.closedTimestampSetterIdx }
        engine := some records
        sync := sync
        batchClosed := true
        err := none }

/-- `ephemeralReplicaAppBatch`: the bare-minimum batch used to decide
speculatively whether commands will be rejected. -/
structure ephemeralReplicaAppBatch where
  state : ReplicaState
deriving DecidableEq, Repr

/-- `ephemeralReplicaAppBatch.Stage`: run the rejection predicate and
advance the view's lease-applied index; no storage mutations. -/
def ephemeralReplicaAppBatch.Stage (mb : ephemeralReplicaAppBatch) (cmd : replicatedCmd) :
    ephemeralReplicaAppBatch × replicatedCmd :=
  ({ state := { mb.state with
        leaseAppliedIndex := (shouldApplyCommand mb.state cmd).leaseIndex } },
   shouldApplyCommand mb.state cmd)

/-- Whether an `Except` value carries a success. -/
def stageOk {α : Type} (x : Except ReplError α) : Bool :=
  match x with
  | Except.ok _ => true
  | Except.error _ => false

/-- The batch view after a successful `Stage`, if it succeeded. -/
def stageResultState (x : Except ReplError (Replica × replicaAppBatch × replicatedCmd)) :
    Option ReplicaState :=
  match x with
  | Except.ok (_, b, _) => some b.state
  | Except.error _ => none

/-- The checked command returned by a successful `Stage`, if it
succeeded. -/
def stageResultCmd (x : Except ReplError (Replica × replicaAppBatch × replicatedCmd)) :
    Option replicatedCmd :=
  match x with
  | Except.ok (_, _, c) => some c
  | Except.error _ => none

/-- Staging a whole sequence of commands through a real application batch,
recording for each one whether it was accepted (`forcedErr` clear on the
checked command). Returns `none` as soon as any `Stage` returns an
error. -/
def stageList (enabled loosely : Bool) :
    Replica → replicaAppBatch → List replicatedCmd →
    Option (List Bool × Replica × replicaAppBatch)
  | r, b, [] => some ([], r, b)
  | r, b, c :: cs =>
    match b.Stage enabled loosely r c with
    | Except.error _ => none
    | Except.ok (r1, b1, c1) =>
      match stageList enabled loosely r1 b1 cs with
      | none => none
      | some (ds, r2, b2) => some (c1.forcedErr.isNone :: ds, r2, b2)

/-- Staging a whole sequence of commands through an ephemeral batch,
recording each accept/reject decision. -/
def ephemeralStageList : ephemeralReplicaAppBatch → List replicatedCmd →
    List Bool × ephemeralReplicaAppBatch
  | mb, [] => ([], mb)
  | mb, c :: cs =>
    match mb.Stage c with
    | (mb1, c1) =>
      match ephemeralStageList mb1 cs with
      | (ds, mb2) => (c1.forcedErr.isNone :: ds, mb2)

/-- The batch returned by a successful `Stage`, if it succeeded. -/
def stageResultBatch (x : Except ReplError (Replica × replicaAppBatch × replicatedCmd)) :
    Option replicaAppBatch :=
  match x with
  | Except.ok (_, b, _) => some b
  | Except.error _ => none

/-! ## Concrete fixtures

A small replica/batch/command configuration used to instantiate the
universally quantified theorems below at concrete inputs. -/

/-- A state view: applied index 10 at term 3, lease-applied index 5 under
lease sequence 3, closed timestamp 1000, GC threshold 100, log truncated
through index 4. -/
def exState : ReplicaState :=
  { raftAppliedIndex := 10
    raftAppliedIndexTerm := 3
    leaseAppliedIndex := 5
    leaseSeq := 3
    stats := MVCCStats.zero
    raftClosedTimestamp := ⟨1000, 0⟩
    gcThreshold := ⟨100, 0⟩
    truncatedState := ⟨4, 1⟩ }

def exReplica : Replica :=
  { state := exState
    storeId := 7
    raftLog := ["entryA", "entryB"]
    raftLogSizeTrusted := true
    pendingTruncations := []
    destroyed := false
    closedTimestampSetterIdx := none }

def exBatch : replicaAppBatch :=
  { state := exState
    records := []
    changeRemovesReplica := false
    entries := 0
    entryBytes := 0
    emptyEntries := 0
    mutations := 0
    closedTimestampSetterIdx := none }

/-- A local intent-writing command at raft index 11 that the rejection
predicate accepts against `exState`. -/
def exCmd : replicatedCmd :=
  { index := 11
    term := 3
    dataSize := 5
    maxLeaseIndex := 6
    closedTimestamp := some ⟨1500, 0⟩
    writeBatch := some [1, 2]
    logicalOpLog := none
    replicatedEvalResult :=
      { delta := ⟨1, 2, 3, 4, 5⟩
        writeTimestamp := ⟨1600, 0⟩
        truncatedState := none
        raftExpectedFirstIndex := 0
        raftLogDelta := 0
        changeReplicas := none }
    proposerLeaseSeq := 3
    isLocal := true
    appliesTimestampCache := true
    leaseIndex := 0
    forcedErr := none }

/-- `exCmd` with a stale `MaxLeaseIndex`, so the predicate rejects it. -/
def exCmdRejected : replicatedCmd := { exCmd with maxLeaseIndex := 5 }

/-- A follow-up command at index 12 whose `MaxLeaseIndex` no longer beats
the lease-applied index advanced by `exCmd`, exercising a rejection in the
middle of a sequence. -/
def exCmdStale : replicatedCmd := { exCmd with index := 12, maxLeaseIndex := 6 }

/-- The fixture command list for the ephemeral-equivalence witness. -/
def exCmds : List replicatedCmd := [exCmd, exCmdStale]

def exEphemeral : ephemeralReplicaAppBatch := { state := exState }

/-- `exCmd` carrying a raft-log truncation through index 8 (the view's log
is truncated through index 4), with `RaftExpectedFirstIndex = 5`. -/
def exCmdTrunc : replicatedCmd :=
  { exCmd with replicatedEvalResult :=
      { exCmd.replicatedEvalResult with
          truncatedState := some ⟨8, 2⟩
          raftExpectedFirstIndex := 5
          raftLogDelta := -10 } }

/-- A batch whose view carries a closed timestamp (900) behind the
replica's committed one (1000), exercising the replica-level regression
assertion. -/
def exBatchRegress : replicaAppBatch :=
  { exBatch with state := { exState with raftClosedTimestamp := ⟨900, 0⟩ } }

/-- The concrete output of staging `exCmd` (with assertions on and
strongly coupled truncation) into `exBatch`. -/
def exStageOut : Replica × replicaAppBatch × replicatedCmd :=
  match exBatch.Stage true false exReplica exCmd with
  | Except.ok o => o
  | Except.error _ => (exReplica, exBatch, exCmd)

/-- The concrete output of staging `exCmdRejected` into `exBatch`. -/
def exStageOutRejected : Replica × replicaAppBatch × replicatedCmd :=
  match exBatch.Stage true false exReplica exCmdRejected with
  | Except.ok o => o
  | Except.error _ => (exReplica, exBatch, exCmdRejected)

/-- The concrete output of staging the `exCmds` sequence. -/
def exStageListOut : List Bool × Replica × replicaAppBatch :=
  match stageList true false exReplica exBatch exCmds with
  | some o => o
  | none => ([], exReplica, exBatch)

/-! ## Basic timestamp lemmas -/

theorem Timestamp.less_irrefl (t : Timestamp) : Timestamp.Less t t = false := by
  simp [Timestamp.Less]

theorem Timestamp.lessEq_refl (t : Timestamp) : Timestamp.LessEq t t = true := by
  simp [Timestamp.LessEq, Timestamp.less_irrefl]

theorem Timestamp.lessEq_of_less {a b : Timestamp} (h : Timestamp.Less a b = true) :
    Timestamp.LessEq a b = true := by
  simp only [Timestamp.Less, decide_eq_true_eq] at h
  simp only [Timestamp.LessEq, Timestamp.Less, Bool.not_eq_true', decide_eq_false_iff_not]
  omega

/-! ## Lemmas about the rejection predicate -/

theorem shouldApplyCommand_fields (s : ReplicaState) (c : replicatedCmd) :
    (shouldApplyCommand s c).index = c.index ∧
    (shouldApplyCommand s c).term = c.term ∧
    (shouldApplyCommand s c).dataSize = c.dataSize ∧
    (shouldApplyCommand s c).maxLeaseIndex = c.maxLeaseIndex ∧
    (shouldApplyCommand s c).closedTimestamp = c.closedTimestamp ∧
    (shouldApplyCommand s c).writeBatch = c.writeBatch ∧
    (shouldApplyCommand s c).logicalOpLog = c.logicalOpLog ∧
    (shouldApplyCommand s c).replicatedEvalResult = c.replicatedEvalResult ∧
    (shouldApplyCommand s c).isLocal = c.isLocal ∧
    (shouldApplyCommand s c).appliesTimestampCache = c.appliesTimestampCache := by
  unfold shouldApplyCommand
  split
  · exact ⟨rfl, rfl, rfl, rfl, rfl, rfl, rfl, rfl, rfl, rfl⟩
  split
  · exact ⟨rfl, rfl, rfl, rfl, rfl, rfl, rfl, rfl, rfl, rfl⟩
  split
  · exact ⟨rfl, rfl, rfl, rfl, rfl, rfl, rfl, rfl, rfl, rfl⟩
  · exact ⟨rfl, rfl, rfl, rfl, rfl, rfl, rfl, rfl, rfl, rfl⟩

/-- The rejection predicate reads only the lease-applied index, the lease
sequence and the GC threshold from the state view. -/
theorem shouldApplyCommand_congr {s1 s2 : ReplicaState} (c : replicatedCmd)
    (h1 : s1.leaseAppliedIndex = s2.leaseAppliedIndex) (h2 : s1.leaseSeq = s2.leaseSeq)
    (h3 : s1.gcThreshold = s2.gcThreshold) :
    shouldApplyCommand s1 c = shouldApplyCommand s2 c := by
  unfold shouldApplyCommand
  rw [h1, h2, h3]

/-- The lease-applied index recorded by the predicate is either the view's
unchanged index or a strictly larger one; in particular, overwriting the
view's index with it when it is non-zero always yields exactly it. -/
theorem shouldApplyCommand_leaseIndex (s : ReplicaState) (c : replicatedCmd) :
    (if (shouldApplyCommand s c).leaseIndex ≠ 0 then (shouldApplyCommand s c).leaseIndex
     else s.leaseAppliedIndex) = (shouldApplyCommand s c).leaseIndex := by
  unfold shouldApplyCommand
  split
  · dsimp only
    split <;> omega
  · rename_i hgt
    split
    · dsimp only
      split <;> omega
    split
    · dsimp only
      split <;> omega
    · dsimp only
      split <;> omega

/-! ## Preservation lemmas for the staging pipeline -/

theorem stageWriteBatch_state (b : replicaAppBatch) (c : replicatedCmd) :
    (b.stageWriteBatch c).state = b.state := by
  unfold replicaAppBatch.stageWriteBatch
  split <;> rfl

theorem stageWriteBatch_flags (b : replicaAppBatch) (c : replicatedCmd) :
    (b.stageWriteBatch c).changeRemovesReplica = b.changeRemovesReplica ∧
    (b.stageWriteBatch c).closedTimestampSetterIdx = b.closedTimestampSetterIdx := by
  unfold replicaAppBatch.stageWriteBatch
  split <;> exact ⟨rfl, rfl⟩

theorem stageWriteBatch_records_none (b : replicaAppBatch) (c : replicatedCmd)
    (h : c.writeBatch = none) : (b.stageWriteBatch c).records = b.records := by
  unfold replicaAppBatch.stageWriteBatch
  rw [h]

/-- The post-staging triggers leave the batch's state view unchanged and
preserve every command field that the trivial update reads, as well as the
stats delta of the replicated result. -/
theorem runPreApplyTriggers_spec (b : replicaAppBatch) (l : Bool) (r : Replica)
    (c : replicatedCmd) :
    (b.runPreApplyTriggersAfterStagingWriteBatch l r c).2.1.state = b.state ∧
    (b.runPreApplyTriggersAfterStagingWriteBatch l r c).2.2.index = c.index ∧
    (b.runPreApplyTriggersAfterStagingWriteBatch l r c).2.2.term = c.term ∧
    (b.runPreApplyTriggersAfterStagingWriteBatch l r c).2.2.leaseIndex = c.leaseIndex ∧
    (b.runPreApplyTriggersAfterStagingWriteBatch l r c).2.2.forcedErr = c.forcedErr ∧
    (b.runPreApplyTriggersAfterStagingWriteBatch l r c).2.2.closedTimestamp =
      c.closedTimestamp ∧
    (b.runPreApplyTriggersAfterStagingWriteBatch l r c).2.2.replicatedEvalResult.delta =
      c.replicatedEvalResult.delta ∧
    (b.runPreApplyTriggersAfterStagingWriteBatch l r c).2.1.closedTimestampSetterIdx =
      b.closedTimestampSetterIdx := by
  unfold replicaAppBatch.runPreApplyTriggersAfterStagingWriteBatch
  dsimp only
  repeat' split
  all_goals exact ⟨rfl, rfl, rfl, rfl, rfl, rfl, rfl, rfl⟩

/-- Triggers on a command whose replicated result carries neither a
truncated state nor a membership change are a no-op. -/
theorem runPreApplyTriggers_trivial (b : replicaAppBatch) (l : Bool) (r : Replica)
    (c : replicatedCmd) (h1 : c.replicatedEvalResult.truncatedState = none)
    (h2 : c.replicatedEvalResult.changeReplicas = none) :
    b.runPreApplyTriggersAfterStagingWriteBatch l r c = (r, b, c) := by
  simp only [replicaAppBatch.runPreApplyTriggersAfterStagingWriteBatch, h1, h2]

/-- The full effect of the trivial-update on the batch's state view, as a
single equation. -/
theorem stageTrivial_state (b : replicaAppBatch) (c : replicatedCmd) :
    (b.stageTrivialReplicatedEvalResult c).state =
      { raftAppliedIndex := c.index
        raftAppliedIndexTerm := c.term
        leaseAppliedIndex :=
          if c.leaseIndex ≠ 0 then c.leaseIndex else b.state.leaseAppliedIndex
        leaseSeq := b.state.leaseSeq
        stats := b.state.stats.add c.replicatedEvalResult.delta
        raftClosedTimestamp :=
          match c.closedTimestamp with
          | some cts => if cts.IsEmpty = false then cts else b.state.raftClosedTimestamp
          | none => b.state.raftClosedTimestamp
        gcThreshold := b.state.gcThreshold
        truncatedState := b.state.truncatedState } := by
  unfold replicaAppBatch.stageTrivialReplicatedEvalResult
  dsimp only
  repeat' split
  all_goals simp_all

theorem stageTrivial_flags (b : replicaAppBatch) (c : replicatedCmd) :
    (b.stageTrivialReplicatedEvalResult c).changeRemovesReplica = b.changeRemovesReplica ∧
    (b.stageTrivialReplicatedEvalResult c).records = b.records := by
  unfold replicaAppBatch.stageTrivialReplicatedEvalResult
  exact ⟨rfl, rfl⟩

/-- Inverting a successful `stageRejectOrAssert`: either the command was
accepted and returned unchanged, or it was rejected and returned as an
empty entry. -/
theorem stageRejectOrAssert_ok {b : replicaAppBatch} {enabled : Bool} {r : Replica}
    {c c2 : replicatedCmd} (h : b.stageRejectOrAssert enabled r c = Except.ok c2) :
    (c.forcedErr = none ∧ c2 = c) ∨
    (c.forcedErr.isSome = true ∧
      c2 = { c with replicatedEvalResult := ReplicatedEvalResult.empty
                    writeBatch := none
                    logicalOpLog := none
                    closedTimestamp := none }) := by
  unfold replicaAppBatch.stageRejectOrAssert at h
  split at h
  · right
    refine ⟨by assumption, ?_⟩
    cases h
    rfl
  · left
    refine ⟨by simp_all [Option.isSome_iff_ne_none], ?_⟩
    split at h
    · cases h
    · split at h
      · cases h
      · cases h
        rfl

/-- Inverting a successful `Stage`: the index checks passed and the result
is `stageChecked` applied to the accepted-or-emptied command. -/
theorem Stage_ok_destruct {enabled loosely : Bool} {r : Replica} {b : replicaAppBatch}
    {c : replicatedCmd} {out : Replica × replicaAppBatch × replicatedCmd}
    (h : b.Stage enabled loosely r c = Except.ok out) :
    c.index ≠ 0 ∧ c.index = b.state.raftAppliedIndex + 1 ∧
    ∃ c2, b.stageRejectOrAssert enabled r (shouldApplyCommand b.state c) = Except.ok c2 ∧
      out = b.stageChecked loosely r c2 := by
  unfold replicaAppBatch.Stage at h
  split at h
  · cases h
  · split at h
    · cases h
    · refine ⟨by assumption, by omega, ?_⟩
      split at h
      · cases h
      · rename_i c2 heq
        cases h
        exact ⟨c2, heq, rfl⟩

/-- The state view after `stageChecked`, as a single equation over the
input command's fields. -/
theorem stageChecked_state (b : replicaAppBatch) (l : Bool) (r : Replica)
    (c : replicatedCmd) :
    (b.stageChecked l r c).2.1.state =
      { raftAppliedIndex := c.index
        raftAppliedIndexTerm := c.term
        leaseAppliedIndex :=
          if c.leaseIndex ≠ 0 then c.leaseIndex else b.state.leaseAppliedIndex
        leaseSeq := b.state.leaseSeq
        stats := b.state.stats.add c.replicatedEvalResult.delta
        raftClosedTimestamp :=
          match c.closedTimestamp with
          | some cts => if cts.IsEmpty = false then cts else b.state.raftClosedTimestamp
          | none => b.state.raftClosedTimestamp
        gcThreshold := b.state.gcThreshold
        truncatedState := b.state.truncatedState } := by
  unfold replicaAppBatch.stageChecked
  obtain ⟨hstate, hindex, hterm, hlease, hferr, hcts, hdelta, hsetter⟩ :=
    runPreApplyTriggers_spec (b.stageWriteBatch c) l r c
  generalize hT : (b.stageWriteBatch c).runPreApplyTriggersAfterStagingWriteBatch l r c = T
  rw [hT] at hstate hindex hterm hlease hferr hcts hdelta
  obtain ⟨r3, b3, c3⟩ := T
  dsimp only at hstate hindex hterm hlease hferr hcts hdelta ⊢
  show (b3.stageTrivialReplicatedEvalResult c3).state = _
  rw [stageTrivial_state, hstate, stageWriteBatch_state, hindex, hterm, hlease, hcts, hdelta]

/-- The checked command returned by `stageChecked` preserves the fields the
claims inspect. -/
theorem stageChecked_cmd (b : replicaAppBatch) (l : Bool) (r : Replica)
    (c : replicatedCmd) :
    (b.stageChecked l r c).2.2.index = c.index ∧
    (b.stageChecked l r c).2.2.term = c.term ∧
    (b.stageChecked l r c).2.2.leaseIndex = c.leaseIndex ∧
    (b.stageChecked l r c).2.2.forcedErr = c.forcedErr ∧
    (b.stageChecked l r c).2.2.closedTimestamp = c.closedTimestamp ∧
    (b.stageChecked l r c).2.2.replicatedEvalResult.delta = c.replicatedEvalResult.delta := by
  unfold replicaAppBatch.stageChecked
  obtain ⟨hstate, hindex, hterm, hlease, hferr, hcts, hdelta, hsetter⟩ :=
    runPreApplyTriggers_spec (b.stageWriteBatch c) l r c
  generalize hT : (b.stageWriteBatch c).runPreApplyTriggersAfterStagingWriteBatch l r c = T
  rw [hT] at hindex hterm hlease hferr hcts hdelta
  obtain ⟨r3, b3, c3⟩ := T
  dsimp only at hindex hterm hlease hferr hcts hdelta ⊢
  exact ⟨hindex, hterm, hlease, hferr, hcts, hdelta⟩

/-- `stageChecked` on a command without truncation or membership-change
side effects and without a write batch leaves the records, the removal
flag and the command itself untouched (only counters and the view move). -/
theorem stageChecked_cmd_trivial (b : replicaAppBatch) (l : Bool) (r : Replica)
    (c : replicatedCmd) (h1 : c.replicatedEvalResult.truncatedState = none)
    (h2 : c.replicatedEvalResult.changeReplicas = none) (h3 : c.writeBatch = none) :
    (b.stageChecked l r c).2.2 = c ∧
    (b.stageChecked l r c).1 = r ∧
    (b.stageChecked l r c).2.1.records = b.records ∧
    (b.stageChecked l r c).2.1.changeRemovesReplica = b.changeRemovesReplica := by
  unfold replicaAppBatch.stageChecked
  have hwb : b.stageWriteBatch c = b := by
    unfold replicaAppBatch.stageWriteBatch
    rw [h3]
  rw [hwb, runPreApplyTriggers_trivial b l r c h1 h2]
  exact ⟨rfl, rfl, (stageTrivial_flags b c).2, (stageTrivial_flags b c).1⟩

/-- The work-horse inversion: the full relation between the inputs and
outputs of a successful `Stage`, phrased via the rejection predicate's
output on the incoming command. -/
theorem Stage_ok_spec {enabled loosely : Bool} {r : Replica} {b : replicaAppBatch}
    {c : replicatedCmd} {r' : Replica} {b' : replicaAppBatch} {c' : replicatedCmd}
    (h : b.Stage enabled loosely r c = Except.ok (r', b', c')) :
    c.index ≠ 0 ∧
    c.index = b.state.raftAppliedIndex + 1 ∧
    c'.index = c.index ∧
    c'.term = c.term ∧
    c'.leaseIndex = (shouldApplyCommand b.state c).leaseIndex ∧
    c'.forcedErr = (shouldApplyCommand b.state c).forcedErr ∧
    c'.closedTimestamp =
      (if (shouldApplyCommand b.state c).forcedErr.isSome then none else c.closedTimestamp) ∧
    c'.replicatedEvalResult.delta =
      (if (shouldApplyCommand b.state c).forcedErr.isSome then MVCCStats.zero
       else c.replicatedEvalResult.delta) ∧
    b'.state =
      { raftAppliedIndex := c.index
        raftAppliedIndexTerm := c.term
        leaseAppliedIndex := (shouldApplyCommand b.state c).leaseIndex
        leaseSeq := b.state.leaseSeq
        stats := b.state.stats.add
          (if (shouldApplyCommand b.state c).forcedErr.isSome then MVCCStats.zero
           else c.replicatedEvalResult.delta)
        raftClosedTimestamp :=
          (if (shouldApplyCommand b.state c).forcedErr.isSome then b.state.raftClosedTimestamp
           else
             match c.closedTimestamp with
             | some cts => if cts.IsEmpty = false then cts else b.state.raftClosedTimestamp
             | none => b.state.raftClosedTimestamp)
        gcThreshold := b.state.gcThreshold
        truncatedState := b.state.truncatedState } := by
  obtain ⟨hz, hidx, c2, hra, hout⟩ := Stage_ok_destruct h
  obtain ⟨hsi, hst, hsd, hsm, hsc, hsw, hsl, hsr, hsloc, hsa⟩ :=
    shouldApplyCommand_fields b.state c
  have hcmd := stageChecked_cmd b loosely r c2
  have hstate := stageChecked_state b loosely r c2
  rw [← hout] at hcmd hstate
  dsimp only at hcmd hstate
  obtain ⟨h1, h2, h3, h4, h5, h6⟩ := hcmd
  rcases stageRejectOrAssert_ok hra with ⟨hacc, hc2⟩ | ⟨hrej, hc2⟩
  · subst hc2
    refine ⟨hz, hidx, by rw [h1, hsi], by rw [h2, hst], by rw [h3], by rw [h4], ?_, ?_, ?_⟩
    · rw [h5, hsc, hacc]
      rfl
    · rw [h6, hsr, hacc]
      rfl
    · rw [hstate, hsi, hst, hsc, hsr, hacc]
      simp only [Option.isSome_none, Bool.false_eq_true, ↓reduceIte,
        shouldApplyCommand_leaseIndex]
  · subst hc2
    refine ⟨hz, hidx, by rw [h1]; exact hsi, by rw [h2]; exact hst, by rw [h3],
      by rw [h4], ?_, ?_, ?_⟩
    · rw [h5, if_pos hrej]
    · rw [h6, if_pos hrej]
      rfl
    · rw [hstate]
      dsimp only
      simp only [hsi, hst, if_pos hrej, shouldApplyCommand_leaseIndex,
        ReplicatedEvalResult.empty]

/-- Computing `Stage` on a rejected command with a valid index: it
succeeds and returns the command replaced by an empty entry, staging
nothing into the engine batch. -/
theorem Stage_rejected {enabled loosely : Bool} {r : Replica} {b : replicaAppBatch}
    {c : replicatedCmd} (hz : c.index ≠ 0) (hidx : c.index = b.state.raftAppliedIndex + 1)
    (hrej : (shouldApplyCommand b.state c).forcedErr.isSome = true) :
    b.Stage enabled loosely r c =
      Except.ok (b.stageChecked loosely r
        { shouldApplyCommand b.state c with
            replicatedEvalResult := ReplicatedEvalResult.empty
            writeBatch := none
            logicalOpLog := none
            closedTimestamp := none }) := by
  unfold replicaAppBatch.Stage
  rw [if_neg hz, if_neg (by simp [hidx])]
  unfold replicaAppBatch.stageRejectOrAssert
  rw [if_pos hrej]

/-! ## Lemmas about the ephemeral batch -/

/-- Decisions recorded by `stageList` agree with those of
`ephemeralStageList` whenever the two views agree on the fields the
rejection predicate reads; the agreement is preserved from command to
command. -/
theorem stageList_decisions_aux :
    ∀ (cmds : List replicatedCmd) (enabled loosely : Bool) (r : Replica)
      (b : replicaAppBatch) (mb : ephemeralReplicaAppBatch),
      b.state.leaseAppliedIndex = mb.state.leaseAppliedIndex →
      b.state.leaseSeq = mb.state.leaseSeq →
      b.state.gcThreshold = mb.state.gcThreshold →
      ∀ ds r' b', stageList enabled loosely r b cmds = some (ds, r', b') →
      (ephemeralStageList mb cmds).1 = ds := by
  intro cmds
  induction cmds with
  | nil =>
    intro e l r b mb h1 h2 h3 ds r' b' h
    simp only [stageList, Option.some.injEq, Prod.mk.injEq] at h
    obtain ⟨hds, -⟩ := h
    simp only [ephemeralStageList, ← hds]
  | cons c cs ih =>
    intro e l r b mb h1 h2 h3 ds r' b' h
    simp only [stageList] at h
    cases hS : b.Stage e l r c with
    | error err => rw [hS] at h; cases h
    | ok out =>
      obtain ⟨r1, b1, c1⟩ := out
      rw [hS] at h
      dsimp only at h
      cases hL : stageList e l r1 b1 cs with
      | none => rw [hL] at h; cases h
      | some out2 =>
        obtain ⟨ds2, r2, b2⟩ := out2
        rw [hL] at h
        dsimp only at h
        simp only [Option.some.injEq, Prod.mk.injEq] at h
        obtain ⟨hds, -⟩ := h
        obtain ⟨-, -, -, -, -, hferr, -, -, hbstate⟩ := Stage_ok_spec hS
        have hcongr := shouldApplyCommand_congr c h1 h2 h3
        simp only [ephemeralStageList, ephemeralReplicaAppBatch.Stage]
        have htail := ih e l r1 b1
          { state := { mb.state with
              leaseAppliedIndex := (shouldApplyCommand mb.state c).leaseIndex } }
          (by rw [hbstate, ← hcongr]) (by rw [hbstate]; exact h2) (by rw [hbstate]; exact h3)
          ds2 r2 b2 hL
        rw [← hds]
        rw [htail, hferr, hcongr]

/-! ## Theorems for the verified claims -/

/-- **C1.** Staging a command whose raft index is zero, or different from
the batch view's applied index plus one, fails with the corresponding
assertion error (the batch is not modified, `Stage` returning only the
error); when `Stage` succeeds, the applied index recorded in the batch
view is the previous applied index plus one. -/
theorem stage_monotonic_applied_index :
    ∀ (enabled loosely : Bool) (r : Replica) (b : replicaAppBatch) (cmd : replicatedCmd),
    (cmd.index = 0 →
      b.Stage enabled loosely r cmd = Except.error ReplError.nonZeroIndexRequired) ∧
    (cmd.index ≠ 0 → cmd.index ≠ b.state.raftAppliedIndex + 1 →
      b.Stage enabled loosely r cmd =
        Except.error (ReplError.appliedIndexJumped b.state.raftAppliedIndex cmd.index)) ∧
    (∀ st, stageResultState (b.Stage enabled loosely r cmd) = some st →
      st.raftAppliedIndex = b.state.raftAppliedIndex + 1) := by
  intro enabled loosely r b cmd
  refine ⟨?_, ?_, ?_⟩
  · intro hz
    unfold replicaAppBatch.Stage
    rw [if_pos hz]
  · intro hz hj
    unfold replicaAppBatch.Stage
    rw [if_neg hz, if_pos hj]
  · intro st hst
    cases hS : b.Stage enabled loosely r cmd with
    | error err => rw [hS] at hst; cases hst
    | ok out =>
      obtain ⟨r1, b1, c1⟩ := out
      rw [hS] at hst
      simp only [stageResultState, Option.some.injEq] at hst
      obtain ⟨-, hidx, -, -, -, -, -, -, hbstate⟩ := Stage_ok_spec hS
      rw [← hst, hbstate, ← hidx]

/-- **C1 witness.** The three parts of `stage_monotonic_applied_index` at
concrete inputs: staging at index 0 and at a jumped index fails, and a
successful staging advances the view's applied index from 10 to 11. -/
theorem stage_monotonic_applied_index_witness :
    exBatch.Stage true false exReplica { exCmd with index := 0 } =
      Except.error ReplError.nonZeroIndexRequired ∧
    exBatch.Stage true false exReplica { exCmd with index := 13 } =
      Except.error (ReplError.appliedIndexJumped 10 13) ∧
    exStageOut.2.1.state.raftAppliedIndex = 10 + 1 := by
  refine ⟨?_, ?_, ?_⟩
  · exact (stage_monotonic_applied_index true false exReplica exBatch
      { exCmd with index := 0 }).1 (by decide)
  · exact (stage_monotonic_applied_index true false exReplica exBatch
      { exCmd with index := 13 }).2.1 (by decide) (by decide)
  · exact (stage_monotonic_applied_index true false exReplica exBatch exCmd).2.2
      exStageOut.2.1.state (by rfl)

/-- **C2.** A command that the rejection predicate rejects (at a valid
index) is not dropped: `Stage` succeeds and returns it as a checked
command, with its replicated result reset to the empty value and its write
batch, logical-op log and closed timestamp cleared; nothing is staged into
the engine batch for it. -/
theorem stage_rejected_replaced_by_empty_entry :
    ∀ (enabled loosely : Bool) (r : Replica) (b : replicaAppBatch) (cmd : replicatedCmd),
    cmd.index ≠ 0 → cmd.index = b.state.raftAppliedIndex + 1 →
    (shouldApplyCommand b.state cmd).forcedErr.isSome = true →
    stageOk (b.Stage enabled loosely r cmd) = true ∧
    stageResultCmd (b.Stage enabled loosely r cmd) =
      some { shouldApplyCommand b.state cmd with
               replicatedEvalResult := ReplicatedEvalResult.empty
               writeBatch := none
               logicalOpLog := none
               closedTimestamp := none } ∧
    (stageResultBatch (b.Stage enabled loosely r cmd)).map replicaAppBatch.records =
      some b.records := by
  intro enabled loosely r b cmd hz hidx hrej
  rw [Stage_rejected hz hidx hrej]
  obtain ⟨hcmd, hr, hrec, hflag⟩ := stageChecked_cmd_trivial b loosely r
    { shouldApplyCommand b.state cmd with
        replicatedEvalResult := ReplicatedEvalResult.empty
        writeBatch := none
        logicalOpLog := none
        closedTimestamp := none } rfl rfl rfl
  refine ⟨rfl, ?_, ?_⟩
  · simp only [stageResultCmd, Option.some.injEq]
    exact hcmd
  · exact congrArg some hrec

/-- **C2 witness.** Staging the concretely rejected command succeeds,
returns it as an empty entry, and leaves the engine batch empty. -/
theorem stage_rejected_replaced_by_empty_entry_witness :
    stageOk (exBatch.Stage true false exReplica exCmdRejected) = true ∧
    stageResultCmd (exBatch.Stage true false exReplica exCmdRejected) =
      some { shouldApplyCommand exBatch.state exCmdRejected with
               replicatedEvalResult := ReplicatedEvalResult.empty
               writeBatch := none
               logicalOpLog := none
               closedTimestamp := none } ∧
    (stageResultBatch (exBatch.Stage true false exReplica exCmdRejected)).map
      replicaAppBatch.records = some exBatch.records :=
  stage_rejected_replaced_by_empty_entry true false exReplica exBatch exCmdRejected
    (by decide) (by decide) (by decide)

/-- **C5.** After any successful `Stage` — of an accepted or of a rejected
command — the batch view records the command's index and term as applied
index and term; the lease-applied index is overwritten with the checked
command's lease-applied index exactly when that value is non-zero; the
view's closed timestamp is set to the checked command's carried closed
timestamp exactly when one is present and non-empty; and the view's MVCC
stats are the previous stats plus the checked command's stats delta. In
particular a rejected command still advances the applied index by one. -/
theorem stage_trivial_state_update :
    ∀ (enabled loosely : Bool) (r : Replica) (b : replicaAppBatch) (cmd : replicatedCmd)
      (r' : Replica) (b' : replicaAppBatch) (c' : replicatedCmd),
    b.Stage enabled loosely r cmd = Except.ok (r', b', c') →
    b'.state.raftAppliedIndex = cmd.index ∧
    b'.state.raftAppliedIndexTerm = cmd.term ∧
    b'.state.leaseAppliedIndex =
      (if c'.leaseIndex ≠ 0 then c'.leaseIndex else b.state.leaseAppliedIndex) ∧
    b'.state.raftClosedTimestamp =
      (match c'.closedTimestamp with
       | some cts => if cts.IsEmpty = false then cts else b.state.raftClosedTimestamp
       | none => b.state.raftClosedTimestamp) ∧
    b'.state.stats = b.state.stats.add c'.replicatedEvalResult.delta ∧
    (c'.forcedErr.isSome = true →
      b'.state.raftAppliedIndex = b.state.raftAppliedIndex + 1) := by
  intro enabled loosely r b cmd r' b' c' h
  obtain ⟨hz, hidx, hci, hct, hcl, hcf, hcc, hcd, hbstate⟩ := Stage_ok_spec h
  rw [hbstate]
  refine ⟨rfl, rfl, ?_, ?_, ?_, ?_⟩
  · rw [hcl, shouldApplyCommand_leaseIndex]
  · rw [hcc]
    cases hfe : (shouldApplyCommand b.state cmd).forcedErr.isSome with
    | false => simp only [hfe, Bool.false_eq_true, ↓reduceIte]
    | true => simp only [hfe, ↓reduceIte]
  · rw [hcd]
  · intro hforced
    dsimp only
    omega

/-- **C5 witness.** `stage_trivial_state_update` instantiated on the
concretely rejected command: the applied index still advances to 11, the
lease-applied index stays 5, the closed timestamp stays 1000 and the stats
stay zero. -/
theorem stage_trivial_state_update_witness :
    exBatch.Stage true false exReplica exCmdRejected = Except.ok
      (exStageOutRejected.1, exStageOutRejected.2.1, exStageOutRejected.2.2) ∧
    exStageOutRejected.2.1.state.raftAppliedIndex = exCmdRejected.index ∧
    exStageOutRejected.2.1.state.raftAppliedIndexTerm = exCmdRejected.term ∧
    exStageOutRejected.2.1.state.leaseAppliedIndex =
      (if exStageOutRejected.2.2.leaseIndex ≠ 0 then exStageOutRejected.2.2.leaseIndex
       else exBatch.state.leaseAppliedIndex) ∧
    exStageOutRejected.2.1.state.raftClosedTimestamp =
      (match exStageOutRejected.2.2.closedTimestamp with
       | some cts => if cts.IsEmpty = false then cts else exBatch.state.raftClosedTimestamp
       | none => exBatch.state.raftClosedTimestamp) ∧
    exStageOutRejected.2.1.state.stats =
      exBatch.state.stats.add exStageOutRejected.2.2.replicatedEvalResult.delta ∧
    (exStageOutRejected.2.2.forcedErr.isSome = true →
      exStageOutRejected.2.1.state.raftAppliedIndex = exBatch.state.raftAppliedIndex + 1) := by
  refine ⟨by rfl, ?_⟩
  exact stage_trivial_state_update true false exReplica exBatch exCmdRejected
    exStageOutRejected.1 exStageOutRejected.2.1 exStageOutRejected.2.2 (by rfl)

/-- **C6.** The ephemeral batch's `Stage` runs only the rejection
predicate and advances its view's lease-applied index, producing no
storage mutations (it returns only a new view); over any command sequence
staged from the same initial state view, its accept/reject decisions equal
those of a real application batch. -/
theorem ephemeral_decisions_agree :
    ∀ (enabled loosely : Bool) (r : Replica) (b : replicaAppBatch)
      (mb : ephemeralReplicaAppBatch) (cmds : List replicatedCmd),
    b.state = mb.state →
    ∀ ds r' b', stageList enabled loosely r b cmds = some (ds, r', b') →
    (ephemeralStageList mb cmds).1 = ds := by
  intro enabled loosely r b mb cmds hstate
  exact stageList_decisions_aux cmds enabled loosely r b mb
    (by rw [hstate]) (by rw [hstate]) (by rw [hstate])

/-- **C6 witness.** Over the concrete two-command sequence (one accepted,
one rejected for a stale lease-applied index), the real batch records the
decisions `exStageListOut.1` and the ephemeral batch reproduces them. -/
theorem ephemeral_decisions_agree_witness :
    exBatch.state = exEphemeral.state ∧
    stageList true false exReplica exBatch exCmds =
      some (exStageListOut.1, exStageListOut.2.1, exStageListOut.2.2) ∧
    (ephemeralStageList exEphemeral exCmds).1 = exStageListOut.1 := by
  refine ⟨rfl, by rfl, ?_⟩
  exact ephemeral_decisions_agree true false exReplica exBatch exEphemeral exCmds rfl
    exStageListOut.1 exStageListOut.2.1 exStageListOut.2.2 (by rfl)

/-- **C7.** The no-write-below-closed-timestamp assertion fires exactly
for a local command applying the timestamp cache, with assertions enabled,
whose non-empty write timestamp is at or below the batch view's closed
timestamp — the view's timestamp as closed by *prior* commands, not the
timestamp the command itself carries; when the command is otherwise
accepted at a valid index, `Stage` then returns an assertion error. -/
theorem stage_no_write_below_closed_timestamp :
    ∀ (b : replicaAppBatch) (cmd : replicatedCmd) (enabled : Bool),
    ((b.assertNoWriteBelowClosedTimestamp enabled cmd ≠ none) ↔
      (enabled = true ∧ cmd.isLocal = true ∧ cmd.appliesTimestampCache = true ∧
       cmd.replicatedEvalResult.writeTimestamp.IsEmpty = false ∧
       cmd.replicatedEvalResult.writeTimestamp.LessEq b.state.raftClosedTimestamp = true)) ∧
    (∀ (loosely : Bool) (r : Replica),
      cmd.index ≠ 0 → cmd.index = b.state.raftAppliedIndex + 1 →
      (shouldApplyCommand b.state cmd).forcedErr = none →
      enabled = true → cmd.isLocal = true → cmd.appliesTimestampCache = true →
      cmd.replicatedEvalResult.writeTimestamp.IsEmpty = false →
      cmd.replicatedEvalResult.writeTimestamp.LessEq b.state.raftClosedTimestamp = true →
      stageOk (b.Stage enabled loosely r cmd) = false) := by
  intro b cmd enabled
  constructor
  · unfold replicaAppBatch.assertNoWriteBelowClosedTimestamp
    constructor
    · intro h
      split at h
      · exact absurd rfl h
      · split at h
        · exact absurd rfl h
        · split at h
          · rename_i hloc hen hw
            refine ⟨?_, ?_, ?_, hw.1, hw.2⟩
            · cases enabled with
              | false => exact absurd rfl hen
              | true => rfl
            · rcases not_or.mp hloc with ⟨hl, -⟩
              cases hcl : cmd.isLocal with
              | false => exact absurd hcl hl
              | true => rfl
            · rcases not_or.mp hloc with ⟨-, ha⟩
              cases hca : cmd.appliesTimestampCache with
              | false => exact absurd hca ha
              | true => rfl
          · exact absurd rfl h
    · intro ⟨hen, hl, ha, hwe, hwle⟩
      rw [if_neg (by simp [hl, ha]), if_neg (by simp [hen]), if_pos ⟨hwe, hwle⟩]
      simp
  · intro loosely r hz hidx hacc hen hl ha hwe hwle
    unfold replicaAppBatch.Stage
    rw [if_neg hz, if_neg (by simp [hidx])]
    unfold replicaAppBatch.stageRejectOrAssert
    rw [if_neg (by rw [hacc]; simp)]
    obtain ⟨hsi, hst, hsd, hsm, hsc, hsw, hsl, hsr, hsloc, hsa⟩ :=
      shouldApplyCommand_fields b.state cmd
    cases hreg : b.assertNoCmdClosedTimestampRegression enabled r
      (shouldApplyCommand b.state cmd) with
    | some e => rfl
    | none =>
      have hfire : b.assertNoWriteBelowClosedTimestamp enabled
          (shouldApplyCommand b.state cmd) ≠ none := by
        unfold replicaAppBatch.assertNoWriteBelowClosedTimestamp
        rw [if_neg (by simp [hsloc, hsa, hl, ha]), if_neg (by simp [hen]),
          if_pos (by rw [hsr]; exact ⟨hwe, hwle⟩)]
        simp
      cases hfw : b.assertNoWriteBelowClosedTimestamp enabled
        (shouldApplyCommand b.state cmd) with
      | none => exact absurd hfw hfire
      | some e => rfl

/-- **C7 witness.** A concrete local intent write at timestamp 900, at or
below the view's closed timestamp 1000, makes the assertion fire and
`Stage` fail; the command's own carried closed timestamp (1500) plays no
role in the comparison. -/
theorem stage_no_write_below_closed_timestamp_witness :
    (exBatch.assertNoWriteBelowClosedTimestamp true
      { exCmd with replicatedEvalResult :=
          { exCmd.replicatedEvalResult with writeTimestamp := ⟨900, 0⟩ } } ≠ none) ∧
    stageOk (exBatch.Stage true false exReplica
      { exCmd with replicatedEvalResult :=
          { exCmd.replicatedEvalResult with writeTimestamp := ⟨900, 0⟩ } }) = false := by
  constructor
  · exact (stage_no_write_below_closed_timestamp exBatch
      { exCmd with replicatedEvalResult :=
          { exCmd.replicatedEvalResult with writeTimestamp := ⟨900, 0⟩ } } true).1.mpr
      (by refine ⟨rfl, rfl, rfl, by decide, by decide⟩)
  · exact (stage_no_write_below_closed_timestamp exBatch
      { exCmd with replicatedEvalResult :=
          { exCmd.replicatedEvalResult with writeTimestamp := ⟨900, 0⟩ } } true).2
      false exReplica (by decide) (by decide) (by decide) rfl rfl rfl (by decide) (by decide)

/-- **C8.** An accepted command (valid index, assertions enabled) carrying
a non-empty closed timestamp strictly below the batch view's closed
timestamp makes `Stage` return the regression assertion error, whose
diagnostic embeds the raft log tail printed with at most 100 entries of at
most 2000 characters each; those bounds hold of the printed tail for every
log. -/
theorem stage_cmd_closed_timestamp_regression :
    ∀ (loosely : Bool) (r : Replica) (b : replicaAppBatch) (cmd : replicatedCmd)
      (ct : Timestamp),
    cmd.index ≠ 0 → cmd.index = b.state.raftAppliedIndex + 1 →
    (shouldApplyCommand b.state cmd).forcedErr = none →
    cmd.closedTimestamp = some ct → ct.IsEmpty = false →
    ct.Less b.state.raftClosedTimestamp = true →
    b.Stage true loosely r cmd =
      Except.error (ReplError.cmdClosedTimestampRegression b.state.raftClosedTimestamp ct
        (printRaftTail r.raftLog 100 2000)) ∧
    (∀ (log : List String), (printRaftTail log 100 2000).length ≤ 100 ∧
      ∀ e ∈ printRaftTail log 100 2000, e.length ≤ 2000) := by
  intro loosely r b cmd ct hz hidx hacc hct hcte hctl
  constructor
  · unfold replicaAppBatch.Stage
    rw [if_neg hz, if_neg (by simp [hidx])]
    unfold replicaAppBatch.stageRejectOrAssert
    rw [if_neg (by rw [hacc]; simp)]
    obtain ⟨hsi, hst, hsd, hsm, hsc, hsw, hsl, hsr, hsloc, hsa⟩ :=
      shouldApplyCommand_fields b.state cmd
    have hreg : b.assertNoCmdClosedTimestampRegression true r
        (shouldApplyCommand b.state cmd) =
        some (ReplError.cmdClosedTimestampRegression b.state.raftClosedTimestamp ct
          (printRaftTail r.raftLog 100 2000)) := by
      unfold replicaAppBatch.assertNoCmdClosedTimestampRegression
      rw [if_neg (by simp), hsc, hct]
      dsimp only
      rw [if_pos ⟨hcte, hctl⟩]
    rw [hreg]
  · intro log
    constructor
    · unfold printRaftTail
      rw [List.length_reverse, List.length_map]
      exact le_trans (List.length_take_le 100 log.reverse) (le_refl 100)
    · intro e he
      unfold printRaftTail at he
      rw [List.mem_reverse, List.mem_map] at he
      obtain ⟨a, -, hae⟩ := he
      rw [← hae]
      show (String.mk (a.data.take 2000)).length ≤ 2000
      simp only [String.length]
      exact List.length_take_le 2000 a.data

/-- **C8 witness.** Staging a command carrying closed timestamp 900
against a view whose closed timestamp is 1000 fails with the regression
error embedding the (2-entry) log tail, and the printed tail obeys the
100-entry / 2000-character bounds. -/
theorem stage_cmd_closed_timestamp_regression_witness :
    exBatch.Stage true false exReplica { exCmd with closedTimestamp := some ⟨900, 0⟩ } =
      Except.error (ReplError.cmdClosedTimestampRegression ⟨1000, 0⟩ ⟨900, 0⟩
        (printRaftTail exReplica.raftLog 100 2000)) ∧
    (printRaftTail exReplica.raftLog 100 2000).length ≤ 100 ∧
    ∀ e ∈ printRaftTail exReplica.raftLog 100 2000, e.length ≤ 2000 := by
  have h := stage_cmd_closed_timestamp_regression false exReplica exBatch
    { exCmd with closedTimestamp := some ⟨900, 0⟩ } ⟨900, 0⟩
    (by decide) (by decide) (by decide) rfl (by decide) (by decide)
  exact ⟨h.1, (h.2 exReplica.raftLog).1, (h.2 exReplica.raftLog).2⟩

/-- **C3.** `ApplyToStateMachine` commits with `sync` equal to
`changeRemovesReplica`; when the batch does not remove the replica, the
applied-state key — encoding applied index, lease-applied index, applied
term, stats and closed timestamp — is appended as the final record of the
committed batch; when it does remove the replica, the committed batch is
exactly the staged records, with no applied-state key added. -/
theorem apply_applied_state_key_and_sync :
    ∀ (enabled commitOk : Bool) (b : replicaAppBatch) (r : Replica),
    (b.ApplyToStateMachine enabled commitOk r).sync = b.changeRemovesReplica ∧
    (commitOk = true → b.changeRemovesReplica = false →
      (b.ApplyToStateMachine enabled commitOk r).engine =
        some (b.records ++ [BatchRecord.rangeAppliedStateKey b.state.raftAppliedIndex
          b.state.leaseAppliedIndex b.state.raftAppliedIndexTerm b.state.stats
          b.state.raftClosedTimestamp])) ∧
    (commitOk = true → b.changeRemovesReplica = false →
      ((b.ApplyToStateMachine enabled commitOk r).engine.getD []).getLast? =
        some (BatchRecord.rangeAppliedStateKey b.state.raftAppliedIndex
          b.state.leaseAppliedIndex b.state.raftAppliedIndexTerm b.state.stats
          b.state.raftClosedTimestamp)) ∧
    (commitOk = true → b.changeRemovesReplica = true →
      (b.ApplyToStateMachine enabled commitOk r).engine = some b.records) := by
  intro enabled commitOk b r
  refine ⟨?_, ?_, ?_, ?_⟩
  · simp only [replicaAppBatch.ApplyToStateMachine]
    repeat' split
    all_goals rfl
  · intro hc hrem
    subst hc
    simp only [replicaAppBatch.ApplyToStateMachine, hrem,
      replicaAppBatch.addAppliedStateKeyToBatch]
    repeat' split
    all_goals simp_all
  · intro hc hrem
    subst hc
    simp only [replicaAppBatch.ApplyToStateMachine, hrem,
      replicaAppBatch.addAppliedStateKeyToBatch]
    repeat' split
    all_goals simp_all [List.getLast?_concat]
  · intro hc hrem
    subst hc
    simp only [replicaAppBatch.ApplyToStateMachine, hrem]
    repeat' split
    all_goals simp_all

/-- **C3 witness.** `apply_applied_state_key_and_sync` at the concrete
batch: without removal the applied-state key `(11, 6, 3, stats, 1000)` is
the final committed record and `sync = false`; with removal nothing is
appended and `sync = true`. -/
theorem apply_applied_state_key_and_sync_witness :
    (exBatch.ApplyToStateMachine true true exReplica).sync = false ∧
    (exBatch.ApplyToStateMachine true true exReplica).engine =
      some (exBatch.records ++ [BatchRecord.rangeAppliedStateKey 10 5 3 MVCCStats.zero
        ⟨1000, 0⟩]) ∧
    (({ exBatch with changeRemovesReplica := true }).ApplyToStateMachine true true
      exReplica).engine = some exBatch.records := by
  refine ⟨?_, ?_, ?_⟩
  · exact (apply_applied_state_key_and_sync true true exBatch exReplica).1
  · exact (apply_applied_state_key_and_sync true true exBatch exReplica).2.1 rfl rfl
  · exact (apply_applied_state_key_and_sync true true
      { exBatch with changeRemovesReplica := true } exReplica).2.2.2 rfl rfl

/-- **C4.** The replica's committed closed timestamp never retreats
through `ApplyToStateMachine`: on a successful publication it becomes the
forward (maximum) of the existing and the batch timestamps — so it is left
unchanged whenever the batch's closed timestamp is not newer, which covers
an empty or older one — and if the batch carries a non-empty closed
timestamp strictly below the replica's existing one while assertions are
enabled, the regression assertion error is returned. -/
theorem apply_closed_timestamp_monotonic :
    ∀ (enabled commitOk : Bool) (b : replicaAppBatch) (r : Replica),
    Timestamp.LessEq r.state.raftClosedTimestamp
      (b.ApplyToStateMachine enabled commitOk r).replica.state.raftClosedTimestamp = true ∧
    ((b.ApplyToStateMachine enabled commitOk r).err = none →
      (b.ApplyToStateMachine enabled commitOk r).replica.state.raftClosedTimestamp =
        (Timestamp.Forward r.state.raftClosedTimestamp b.state.raftClosedTimestamp).1) ∧
    ((b.ApplyToStateMachine enabled commitOk r).err = none →
      Timestamp.Less r.state.raftClosedTimestamp b.state.raftClosedTimestamp = false →
      (b.ApplyToStateMachine enabled commitOk r).replica.state.raftClosedTimestamp =
        r.state.raftClosedTimestamp) ∧
    (commitOk = true → enabled = true →
      b.state.raftClosedTimestamp.IsEmpty = false →
      Timestamp.Less b.state.raftClosedTimestamp r.state.raftClosedTimestamp = true →
      (b.ApplyToStateMachine enabled commitOk r).err =
        some (ReplError.replicaClosedTimestampRegression r.state.raftClosedTimestamp
          b.state.raftClosedTimestamp)) := by
  intro enabled commitOk b r
  refine ⟨?_, ?_, ?_, ?_⟩
  · simp only [replicaAppBatch.ApplyToStateMachine]
    split
    · exact Timestamp.lessEq_refl _
    · split
      · exact Timestamp.lessEq_refl _
      · simp only [Timestamp.Forward]
        split
        · rename_i hlt
          exact Timestamp.lessEq_of_less hlt
        · exact Timestamp.lessEq_refl _
  · intro herr
    simp only [replicaAppBatch.ApplyToStateMachine] at herr ⊢
    split at herr
    · cases herr
    · rename_i h1
      split at herr
      · cases herr
      · rename_i h2
        rw [if_neg h1, if_neg h2]
  · intro herr hnotless
    simp only [replicaAppBatch.ApplyToStateMachine] at herr ⊢
    split at herr
    · cases herr
    · rename_i h1
      split at herr
      · cases herr
      · rename_i h2
        rw [if_neg h1, if_neg h2]
        simp only [Timestamp.Forward, hnotless, Bool.false_eq_true, ↓reduceIte]
  · intro hc hen hne hlt
    subst hc
    subst hen
    simp only [replicaAppBatch.ApplyToStateMachine]
    rw [if_neg (by simp)]
    rw [if_pos ⟨hne, hlt, by trivial⟩]

/-- **C4 witness.** The concrete regression batch (view closed timestamp
900 against the replica's 1000) leaves the replica's timestamp at 1000 and
returns the regression error; the well-behaved batch publishes without
error and the timestamp only moves forward. -/
theorem apply_closed_timestamp_monotonic_witness :
    Timestamp.LessEq exReplica.state.raftClosedTimestamp
      (exBatchRegress.ApplyToStateMachine true true exReplica).replica.state.raftClosedTimestamp
      = true ∧
    (exBatchRegress.ApplyToStateMachine true true exReplica).err =
      some (ReplError.replicaClosedTimestampRegression ⟨1000, 0⟩ ⟨900, 0⟩) := by
  constructor
  · exact (apply_closed_timestamp_monotonic true true exBatchRegress exReplica).1
  · exact (apply_closed_timestamp_monotonic true true exBatchRegress exReplica).2.2.2
      rfl rfl (by decide) (by decide)

/-- **C10.** When `ApplyToStateMachine` returns the replica-level
closed-timestamp regression assertion error, the engine batch has already
been committed and closed: the staged records (with the applied-state key,
when the batch does not remove the replica) are durable and the replica's
applied index has been advanced to the batch's, even though the operation
reports failure. -/
theorem apply_regression_error_after_commit :
    ∀ (enabled commitOk : Bool) (b : replicaAppBatch) (r : Replica) (e n : Timestamp),
    (b.ApplyToStateMachine enabled commitOk r).err =
      some (ReplError.replicaClosedTimestampRegression e n) →
    (b.ApplyToStateMachine enabled commitOk r).engine =
      some (if b.changeRemovesReplica = false then b.addAppliedStateKeyToBatch
            else b.records) ∧
    (b.ApplyToStateMachine enabled commitOk r).batchClosed = true ∧
    (b.ApplyToStateMachine enabled commitOk r).replica.state.raftAppliedIndex =
      b.state.raftAppliedIndex := by
  intro enabled commitOk b r e n herr
  simp only [replicaAppBatch.ApplyToStateMachine] at herr ⊢
  split at herr
  · cases herr
  · split at herr
    · simp_all
    · cases herr

/-- **C10 witness.** On the concrete regression batch the error is
reported even though the records (applied-state key included) are
committed, the batch is closed, and the replica's applied index was
advanced. -/
theorem apply_regression_error_after_commit_witness :
    (exBatchRegress.ApplyToStateMachine true true exReplica).engine =
      some (if exBatchRegress.changeRemovesReplica = false then
              exBatchRegress.addAppliedStateKeyToBatch
            else exBatchRegress.records) ∧
    (exBatchRegress.ApplyToStateMachine true true exReplica).batchClosed = true ∧
    (exBatchRegress.ApplyToStateMachine true true exReplica).replica.state.raftAppliedIndex =
      exBatchRegress.state.raftAppliedIndex :=
  apply_regression_error_after_commit true true exBatchRegress exReplica
    ⟨1000, 0⟩ ⟨900, 0⟩ (by decide)

/-- **C9.** For a command carrying a truncated state (and no membership
change), the strongly coupled path — handing the truncation to
`handleTruncatedStateBelowRaftPreApply`, which writes it into this batch
now or discards it — is taken exactly when loosely coupled truncation is
disabled or the command's `RaftExpectedFirstIndex` is absent (zero): in
that case nothing is queued on the background truncator, and on the
applied sub-case the truncated state is written into the batch with the
replicated result untouched. Otherwise the truncation is queued on the
background truncator and the result's truncated state, raft-log delta and
expected first index are cleared, so nothing happens to the in-memory
truncated state at commit. -/
theorem truncation_coupling_choice :
    ∀ (l : Bool) (r : Replica) (b : replicaAppBatch) (cmd : replicatedCmd)
      (nt : TruncatedState),
    cmd.replicatedEvalResult.truncatedState = some nt →
    cmd.replicatedEvalResult.changeReplicas = none →
    ((l = false ∨ cmd.replicatedEvalResult.raftExpectedFirstIndex = 0) →
      (b.runPreApplyTriggersAfterStagingWriteBatch l r cmd).1.pendingTruncations =
        r.pendingTruncations ∧
      (b.state.truncatedState.index < nt.index →
        (b.runPreApplyTriggersAfterStagingWriteBatch l r cmd).2.1.records =
          b.records ++ [BatchRecord.truncatedStateKey nt] ∧
        (b.runPreApplyTriggersAfterStagingWriteBatch l r cmd).2.2.replicatedEvalResult =
          cmd.replicatedEvalResult) ∧
      (¬ b.state.truncatedState.index < nt.index →
        (b.runPreApplyTriggersAfterStagingWriteBatch l r cmd).2.1.records = b.records ∧
        (b.runPreApplyTriggersAfterStagingWriteBatch l r cmd).2.2.replicatedEvalResult.truncatedState
          = none ∧
        (b.runPreApplyTriggersAfterStagingWriteBatch l r cmd).2.2.replicatedEvalResult.raftLogDelta
          = 0 ∧
        (b.runPreApplyTriggersAfterStagingWriteBatch l r cmd).2.2.replicatedEvalResult.raftExpectedFirstIndex
          = 0)) ∧
    ((l = true ∧ cmd.replicatedEvalResult.raftExpectedFirstIndex ≠ 0) →
      (b.runPreApplyTriggersAfterStagingWriteBatch l r cmd).1.pendingTruncations =
        r.pendingTruncations ++
          [{ trunc := nt
             expectedFirstIndex := cmd.replicatedEvalResult.raftExpectedFirstIndex
             logDelta := cmd.replicatedEvalResult.raftLogDelta }] ∧
      (b.runPreApplyTriggersAfterStagingWriteBatch l r cmd).2.1.records = b.records ∧
      (b.runPreApplyTriggersAfterStagingWriteBatch l r cmd).2.2.replicatedEvalResult.truncatedState
        = none ∧
      (b.runPreApplyTriggersAfterStagingWriteBatch l r cmd).2.2.replicatedEvalResult.raftLogDelta
        = 0 ∧
      (b.runPreApplyTriggersAfterStagingWriteBatch l r cmd).2.2.replicatedEvalResult.raftExpectedFirstIndex
        = 0 ∧
      (b.runPreApplyTriggersAfterStagingWriteBatch l r cmd).1.raftLogSizeTrusted =
        r.raftLogSizeTrusted) := by
  intro l r b cmd nt htr hch
  simp only [replicaAppBatch.runPreApplyTriggersAfterStagingWriteBatch, htr]
  constructor
  · intro hco
    rw [if_pos hco]
    by_cases hlt : b.state.truncatedState.index < nt.index
    · simp only [handleTruncatedStateBelowRaftPreApply, if_pos hlt]
      rw [hch]
      exact ⟨rfl, fun _ => ⟨rfl, rfl⟩, fun hna => absurd hlt hna⟩
    · simp only [handleTruncatedStateBelowRaftPreApply, if_neg hlt]
      rw [hch]
      refine ⟨?_, fun ha => absurd ha hlt, fun _ => ⟨rfl, rfl, rfl, rfl⟩⟩
      dsimp only
      split <;> rfl
  · intro ⟨hl, hefi⟩
    rw [if_neg (by simp [hl, hefi])]
    dsimp only
    rw [hch]
    exact ⟨rfl, rfl, rfl, rfl, rfl, rfl⟩

/-- **C9 witness.** With loosely coupled truncation disabled the concrete
truncation (to index 8 past the current 4) is written into the batch and
nothing is queued; with it enabled and `RaftExpectedFirstIndex = 5` the
truncation is queued on the background truncator and the result fields are
cleared. -/
theorem truncation_coupling_choice_witness :
    (exBatch.runPreApplyTriggersAfterStagingWriteBatch false exReplica exCmdTrunc).2.1.records =
      exBatch.records ++ [BatchRecord.truncatedStateKey ⟨8, 2⟩] ∧
    (exBatch.runPreApplyTriggersAfterStagingWriteBatch false exReplica
      exCmdTrunc).1.pendingTruncations = exReplica.pendingTruncations ∧
    (exBatch.runPreApplyTriggersAfterStagingWriteBatch true exReplica
      exCmdTrunc).1.pendingTruncations =
      exReplica.pendingTruncations ++
        [{ trunc := ⟨8, 2⟩, expectedFirstIndex := 5, logDelta := -10 }] ∧
    (exBatch.runPreApplyTriggersAfterStagingWriteBatch true exReplica
      exCmdTrunc).2.2.replicatedEvalResult.truncatedState = none := by
  have hs := truncation_coupling_choice false exReplica exBatch exCmdTrunc ⟨8, 2⟩ rfl rfl
  have hl := truncation_coupling_choice true exReplica exBatch exCmdTrunc ⟨8, 2⟩ rfl rfl
  refine ⟨(((hs.1 (Or.inl rfl)).2.1 (by decide)).1), (hs.1 (Or.inl rfl)).1, ?_, ?_⟩
  · exact (hl.2 ⟨rfl, by decide⟩).1
  · exact (hl.2 ⟨rfl, by decide⟩).2.2.1

end KVServer
